import Mathlib

/-!
Verification of the ARFlow session-stream pipeline: frame grouping,
pixel-format conversion, plane-boundary projection, the stream
multiplexer's per-frame-type entry points, and the FFmpeg compression
session.  Definitions are shallow embeddings of the Python sources
`arflow/_session_stream.py`, `arflow/_utils.py` and
`arflow/_compression.py`.
-/

/-- A byte of an image buffer (`np.uint8`). -/
def Byte : Type := Fin 256

instance : DecidableEq Byte := instDecidableEqFin 256

/-- One 4-channel pixel of a packed 32-bit image buffer (channel order as
stored in the buffer: channel 0 first). -/
structure Pixel4 where
  c0 : Byte
  c1 : Byte
  c2 : Byte
  c3 : Byte
deriving DecidableEq

/-- A height x width x 4 image buffer, row-major (as the numpy arrays the
converters receive). -/
def Image4 : Type := List (List Pixel4)

/-- `_bgra_to_rgba` of `_session_stream.py`: swap channel indices 0 and 2
of every pixel (the fancy-index assignment `img[:, :, [0, 2]] = img[:, :, [2, 0]]`),
channels 1 and 3 unchanged. -/
def _bgra_to_rgba (img : Image4) : Image4 :=
  img.map (fun row => row.map (fun p => Pixel4.mk p.c2 p.c1 p.c0 p.c3))

/-- `_argb_to_rgba` of `_session_stream.py`: output channels 0,1,2,3 are
input channels 1,2,3,0. -/
def _argb_to_rgba (img : Image4) : Image4 :=
  img.map (fun row => row.map (fun p => Pixel4.mk p.c1 p.c2 p.c3 p.c0))

/-- `XRCpuImage.Format` of the proto schema: the format tags the pipeline
dispatches on. -/
inductive XRFormat where
  | unspecified
  | androidYuv420
  | iosYpCbCr420
  | rgb24
  | rgba32
  | bgra32
  | argb32
  | depthFloat32
  | depthUint16
deriving DecidableEq

/-- One plane of an `XRCpuImage` (byte buffer with row and pixel strides). -/
structure XRPlane where
  row_stride : Nat
  pixel_stride : Nat
  data : List Byte
deriving DecidableEq

/-- Integer dimensions (`Vector2Int` of the proto schema). -/
structure Vector2Int where
  x : Nat
  y : Nat
deriving DecidableEq

/-- `XRCpuImage` of the proto schema: the payload of color and depth frames. -/
structure XRCpuImage where
  format : XRFormat
  dimensions : Vector2Int
  timestamp : Rat
  planes : List XRPlane
deriving DecidableEq

/-- Device-relative timestamp (seconds plus nanoseconds). -/
structure Timestamp where
  seconds : Int
  nanos : Int
deriving DecidableEq

/-- `ColorFrame` of the proto schema (fields the session stream reads). -/
structure ColorFrame where
  image : XRCpuImage
  device_timestamp : Timestamp
deriving DecidableEq

/-- `DepthFrame` of the proto schema (fields the session stream reads). -/
structure DepthFrame where
  image : XRCpuImage
  environment_depth_temporal_smoothing_enabled : Bool
  device_timestamp : Timestamp
deriving DecidableEq

/-- Insert one frame into a `defaultdict(list)`-style association list:
append to the existing group of the key, or append a fresh singleton group
at the end (Python dicts preserve key insertion order). -/
def insertGrouped {κ α : Type} [DecidableEq κ] (k : κ) (a : α) :
    List (κ × List α) → List (κ × List α)
  | [] => [(k, [a])]
  | (k', g) :: rest =>
    if k' = k then (k', g ++ [a]) :: rest else (k', g) :: insertGrouped k a rest

/-- The `for frame in frames: groups[key(frame)].append(frame)` loop,
threading the accumulated association list. -/
def groupByKeyAux {κ α : Type} [DecidableEq κ] (key : α → κ)
    (acc : List (κ × List α)) : List α → List (κ × List α)
  | [] => acc
  | a :: as => groupByKeyAux key (insertGrouped (key a) a acc) as

/-- Group a list by a key, as the two grouping helpers of `_utils.py` do
with a `defaultdict(list)`. -/
def groupByKey {κ α : Type} [DecidableEq κ] (key : α → κ) (frames : List α) :
    List (κ × List α) :=
  groupByKeyAux key [] frames

/-- The group stored for a key (empty when the key is absent). -/
def lookupGroup {κ α : Type} [DecidableEq κ] (k : κ) :
    List (κ × List α) → List α
  | [] => []
  | (k', g) :: rest => if k' = k then g else lookupGroup k rest

/-- The keys of the grouped mapping, in insertion order. -/
def groupKeys {κ α : Type} (groups : List (κ × List α)) : List κ :=
  groups.map Prod.fst

/-- The grouping key of `group_color_frames_by_format_and_dims`. -/
def colorKey (f : ColorFrame) : XRFormat × Nat × Nat :=
  (f.image.format, f.image.dimensions.x, f.image.dimensions.y)

/-- The grouping key of `group_depth_frames_by_format_dims_and_smoothness`. -/
def depthKey (f : DepthFrame) : XRFormat × Nat × Nat × Bool :=
  (f.image.format, f.image.dimensions.x, f.image.dimensions.y,
   f.environment_depth_temporal_smoothing_enabled)

/-- `group_color_frames_by_format_and_dims` of `_utils.py`. -/
def group_color_frames_by_format_and_dims (frames : List ColorFrame) :
    List ((XRFormat × Nat × Nat) × List ColorFrame) :=
  groupByKey colorKey frames

/-- `group_depth_frames_by_format_dims_and_smoothness` of `_utils.py`. -/
def group_depth_frames_by_format_dims_and_smoothness (frames : List DepthFrame) :
    List ((XRFormat × Nat × Nat × Bool) × List DepthFrame) :=
  groupByKey depthKey frames

/-- The `should_compress` predicate computed in `save_color_frames`:
compression enabled, format among the four RGB-family formats, and more
than one frame in the homogeneous batch. -/
def shouldCompress (enableCompression : Bool) (format : XRFormat)
    (numFrames : Nat) : Bool :=
  enableCompression
    && [XRFormat.rgb24, XRFormat.rgba32, XRFormat.bgra32,
        XRFormat.argb32].contains format
    && decide (numFrames > 1)

/-- `Vector2` of the proto schema, modelling its float fields over the reals. -/
structure Vector2 where
  x : Real
  y : Real

/-- The proto schema's 3-component float vector, modelled over the reals
(named `Vec3` here because Mathlib already declares a `Vector3`). -/
structure Vec3 where
  x : Real
  y : Real
  z : Real

/-- Componentwise sum of 3-vectors (`numpy` array addition). -/
def add3 (a b : Vec3) : Vec3 :=
  Vec3.mk (a.x + b.x) (a.y + b.y) (a.z + b.z)

/-- Scalar multiple of a 3-vector. -/
def smul3 (s : Real) (v : Vec3) : Vec3 :=
  Vec3.mk (s * v.x) (s * v.y) (s * v.z)

/-- Componentwise division of a 3-vector by a scalar (`v / s` in numpy). -/
noncomputable def divScalar3 (v : Vec3) (s : Real) : Vec3 :=
  Vec3.mk (v.x / s) (v.y / s) (v.z / s)

/-- `np.linalg.norm` of a 3-vector. -/
noncomputable def norm3 (v : Vec3) : Real :=
  Real.sqrt (v.x ^ 2 + v.y ^ 2 + v.z ^ 2)

/-- `np.cross` of two 3-vectors. -/
def cross3 (a b : Vec3) : Vec3 :=
  Vec3.mk (a.y * b.z - a.z * b.y) (a.z * b.x - a.x * b.z)
    (a.x * b.y - a.y * b.x)

/-- Absolute tolerance of `np.allclose` (default `atol = 1e-8`). -/
noncomputable def np_atol : Real := 1 / 100000000

/-- Relative tolerance of `np.allclose` (default `rtol = 1e-5`). -/
noncomputable def np_rtol : Real := 1 / 100000

/-- `np.allclose(a, b)` on 3-vectors with the default tolerances:
every component satisfies `|a - b| <= atol + rtol * |b|`. -/
noncomputable def allclose3 (a b : Vec3) : Prop :=
  |a.x - b.x| ≤ np_atol + np_rtol * |b.x|
    ∧ |a.y - b.y| ≤ np_atol + np_rtol * |b.y|
    ∧ |a.z - b.z| ≤ np_atol + np_rtol * |b.z|

open Classical in
/-- The in-plane basis `(u, v)` constructed by
`_convert_2d_to_3d_boundary_points`: normalize the normal, pick the
reference axis (`[1,0,0]` unless the normalized normal is `np.allclose` to
it, else `[0,1,0]`), then `u = normalize(cross(n, ref))` and
`v = cross(n, u)`. -/
noncomputable def planeBasis (normal : Vec3) : Vec3 × Vec3 :=
  let normalized := divScalar3 normal (norm3 normal)
  let arbitrary :=
    if allclose3 normalized (Vec3.mk 1 0 0) then Vec3.mk 0 1 0
    else Vec3.mk 1 0 0
  let u0 := cross3 normalized arbitrary
  let u := divScalar3 u0 (norm3 u0)
  let v := cross3 normalized u
  (u, v)

/-- Projection of one 2D boundary point: `center + p.x * u + p.y * v`. -/
def projectPoint (center u v : Vec3) (p : Vector2) : Vec3 :=
  add3 center (add3 (smul3 p.x u) (smul3 p.y v))

/-- `_convert_2d_to_3d_boundary_points` of `_session_stream.py`: empty
boundary yields an empty output (after a warning); otherwise every 2D point
is projected through the constructed in-plane basis and a duplicate of the
first projected point is appended to close the loop.  The source performs
the normalizations unconditionally: there is no guard on the length of
`normal`. -/
noncomputable def _convert_2d_to_3d_boundary_points (boundary : List Vector2)
    (normal center : Vec3) : List Vec3 :=
  match boundary with
  | [] => []
  | b0 :: _ =>
    let uv := planeBasis normal
    boundary.map (projectPoint center uv.1 uv.2)
      ++ [projectPoint center uv.1 uv.2 b0]

/-- `PlaneDetectionFrame.State` of the proto schema. -/
inductive PlaneState where
  | unspecified
  | added
  | updated
  | removed
deriving DecidableEq

/-- `Plane` of the proto schema (fields the session stream reads). -/
structure ARPlane where
  boundary : List Vector2
  center : Vec3
  normal : Vec3

/-- `PlaneDetectionFrame` of the proto schema (fields the session stream
reads). -/
structure PlaneDetectionFrame where
  state : PlaneState
  plane : ARPlane
  device_timestamp : Timestamp

/-- The `positively_changed_frames` filter of `save_plane_detection_frames`,
with the source's exact boolean expression
`f.state == STATE_ADDED or f.state == STATE_UPDATED and len(f.plane.boundary) > 0`
(in both Python and Lean the conjunction binds tighter than the
disjunction). -/
def positively_changed_plane_frames (frames : List PlaneDetectionFrame) :
    List PlaneDetectionFrame :=
  frames.filter (fun f =>
    f.state == PlaneState.added
      || f.state == PlaneState.updated && decide (f.plane.boundary.length > 0))

/-- `TransformFrame` of the proto schema: a packed row-major 3x4 matrix
(12 floats) plus a device timestamp. -/
structure TransformFrame where
  data : List Real
  device_timestamp : Timestamp

/-- `GyroscopeFrame` of the proto schema (fields the session stream reads). -/
structure GyroscopeFrame where
  attitude_x : Real
  attitude_y : Real
  attitude_z : Real
  attitude_w : Real
  rotation_rate : Vec3
  gravity : Vec3
  acceleration : Vec3
  device_timestamp : Timestamp

/-- `AudioFrame` of the proto schema (fields the session stream reads). -/
structure AudioFrame where
  data : List Real
  device_timestamp : Timestamp

/-- `PointCloudDetectionFrame.State` of the proto schema (same value set as
the plane-detection state enum). -/
inductive PointCloudState where
  | unspecified
  | added
  | updated
  | removed
deriving DecidableEq

/-- `ARPointCloud` of the proto schema (fields the session stream reads). -/
structure ARPointCloud where
  identifiers : List Nat
  positions : List Vec3

/-- `PointCloudDetectionFrame` of the proto schema (fields the session
stream reads). -/
structure PointCloudDetectionFrame where
  state : PointCloudState
  point_cloud : ARPointCloud
  device_timestamp : Timestamp

/-- `MeshFilter` of the proto schema: an instance id and the Draco-encoded
sub-meshes. -/
structure MeshFilter where
  instance_id : Nat
  sub_meshes : List (List Byte)

/-- `MeshDetectionFrame` of the proto schema (fields the session stream
reads). -/
structure MeshDetectionFrame where
  state : PointCloudState
  mesh_filter : MeshFilter
  device_timestamp : Timestamp

/-- One observable effect of a `save_*` entry point of `SessionStream`:
a `logger.warning`, a static `rr.log`, a columnar `rr.send_columns`, a
`rr.set_time_seconds`, a per-mesh timed `rr.log`, or a call into the RGB
compressor. -/
inductive SinkOp where
  | warn
  | logStatic
  | sendColumns
  | setTime
  | logTimed
  | compressAttempt
deriving DecidableEq

/-- Effect trace of `save_transform_frames`: warn on an empty batch,
otherwise one static indicator log and one columnar write. -/
def save_transform_frames_ops (frames : List TransformFrame) : List SinkOp :=
  if frames.length = 0 then [SinkOp.warn]
  else [SinkOp.logStatic, SinkOp.sendColumns]

/-- Effect trace of one homogeneous color group inside `save_color_frames`:
the format dispatch computes the data (calling the compressor inside the
RGB24 branch when `should_compress` holds), then logs the intrinsics
indicator, sends the intrinsics column, logs the image format, and sends
the image column; an unsupported format only warns. -/
def colorGroupOps (enableCompression : Bool) (format : XRFormat)
    (numFrames : Nat) : List SinkOp :=
  let writes :=
    [SinkOp.logStatic, SinkOp.sendColumns, SinkOp.logStatic, SinkOp.sendColumns]
  match format with
  | XRFormat.androidYuv420 => writes
  | XRFormat.rgb24 =>
      (if shouldCompress enableCompression XRFormat.rgb24 numFrames
       then [SinkOp.compressAttempt] else []) ++ writes
  | XRFormat.rgba32 => writes
  | XRFormat.bgra32 => writes
  | XRFormat.argb32 => writes
  | XRFormat.iosYpCbCr420 => writes
  | _ => [SinkOp.warn]

/-- Effect trace of `save_color_frames`: warn on an empty batch, otherwise
group by (format, width, height), skip empty groups, and emit each group's
trace. -/
def save_color_frames_ops (enableCompression : Bool)
    (frames : List ColorFrame) : List SinkOp :=
  if frames.length = 0 then [SinkOp.warn]
  else
    (group_color_frames_by_format_and_dims frames).flatMap (fun kg =>
      if kg.2.length = 0 then []
      else colorGroupOps enableCompression kg.1.1 kg.2.length)

/-- Effect trace of one homogeneous depth group inside `save_depth_frames`:
supported depth formats log the format statics and send the column,
an unsupported format only warns. -/
def depthGroupOps (format : XRFormat) : List SinkOp :=
  match format with
  | XRFormat.depthFloat32 => [SinkOp.logStatic, SinkOp.sendColumns]
  | XRFormat.depthUint16 => [SinkOp.logStatic, SinkOp.sendColumns]
  | _ => [SinkOp.warn]

/-- Effect trace of `save_depth_frames`: warn on an empty batch, otherwise
group by (format, width, height, smoothing) and emit each group's trace. -/
def save_depth_frames_ops (frames : List DepthFrame) : List SinkOp :=
  if frames.length = 0 then [SinkOp.warn]
  else
    (group_depth_frames_by_format_dims_and_smoothness frames).flatMap (fun kg =>
      depthGroupOps kg.1.1)

/-- Effect trace of `save_gyroscope_frames`: an empty batch returns with no
warning; otherwise the attitude, rotation-rate, gravity and acceleration
sub-paths each get a static log and a columnar write. -/
def save_gyroscope_frames_ops (frames : List GyroscopeFrame) : List SinkOp :=
  if frames.length = 0 then []
  else
    [SinkOp.logStatic, SinkOp.sendColumns, SinkOp.logStatic, SinkOp.sendColumns,
     SinkOp.logStatic, SinkOp.sendColumns, SinkOp.logStatic, SinkOp.sendColumns]

/-- Effect trace of `save_audio_frames`: warn on an empty batch, otherwise
one static indicator log and one columnar write. -/
def save_audio_frames_ops (frames : List AudioFrame) : List SinkOp :=
  if frames.length = 0 then [SinkOp.warn]
  else [SinkOp.logStatic, SinkOp.sendColumns]

/-- Effect trace of `save_plane_detection_frames`: warn on an empty batch,
otherwise a static indicator log, the additive columnar write for the
active subset, and the clearing columnar write for the removed subset. -/
def save_plane_detection_frames_ops (frames : List PlaneDetectionFrame) :
    List SinkOp :=
  if frames.length = 0 then [SinkOp.warn]
  else [SinkOp.logStatic, SinkOp.sendColumns, SinkOp.sendColumns]

/-- Effect trace of `save_point_cloud_detection_frames`: warn on an empty
batch, otherwise a static indicator log, the per-cloud and per-point
additive columnar writes, and the clearing columnar write. -/
def save_point_cloud_detection_frames_ops
    (frames : List PointCloudDetectionFrame) : List SinkOp :=
  if frames.length = 0 then [SinkOp.warn]
  else [SinkOp.logStatic, SinkOp.sendColumns, SinkOp.sendColumns,
        SinkOp.sendColumns]

/-- Effect trace of `save_mesh_detection_frames`: warn on an empty batch,
otherwise a static indicator log, then per added/updated frame a time-set
followed by one timed mesh log per sub-mesh, then the clearing columnar
write. -/
def save_mesh_detection_frames_ops (frames : List MeshDetectionFrame) :
    List SinkOp :=
  if frames.length = 0 then [SinkOp.warn]
  else
    SinkOp.logStatic ::
      ((frames.filter (fun f =>
          f.state == PointCloudState.added
            || f.state == PointCloudState.updated)).flatMap (fun f =>
        SinkOp.setTime :: f.mesh_filter.sub_meshes.map (fun _ => SinkOp.logTimed)))
      ++ [SinkOp.sendColumns]

/-- A temporary file of a `VideoSession`: one of the per-call numbered
frame images (`frame_%06d_{timestamp}.png`) or the per-call output file
(`compressed_{timestamp}.mp4`). -/
inductive TempFile where
  | frameImage (timestamp : Nat) (idx : Nat)
  | output (timestamp : Nat)
deriving DecidableEq

/-- The files present in the session's scratch directory. -/
abbrev FileSystem : Type := List TempFile

/-- The per-call frame image files written by `_save_frames_as_images`:
`pattern % (i + 1)` for each frame index `i`. -/
def frame_files (timestamp n : Nat) : List TempFile :=
  (List.range n).map (fun i => TempFile.frameImage timestamp (i + 1))

/-- `VideoSession._cleanup_temp_files`: unlink every listed file that
exists. -/
def _cleanup_temp_files (files : List TempFile) (fs : FileSystem) : FileSystem :=
  fs.filter (fun p => !(files.contains p))

/-- Outcome of the external FFmpeg invocation inside
`VideoSession._run_ffmpeg_compression`: clean exit with the output file
present and readable, clean exit with the output file absent, non-zero
exit, or timeout. -/
inductive EncodeOutcome where
  | success (bytes : List Byte)
  | outputMissing
  | nonZeroExit
  | timeout

/-- Whether the encode produced a readable output file. -/
def EncodeOutcome.isSuccess : EncodeOutcome → Bool
  | EncodeOutcome.success _ => true
  | _ => false

/-- `VideoSession.compress_frames`: an empty submission returns `None`
before touching the filesystem; otherwise the frames are saved as numbered
scratch images, FFmpeg is invoked, and — via the `finally` block — the
saved images and the output file are unlinked on every exit path.  Only a
successful encode returns the output bytes; timeout, non-zero exit and a
missing output file all return `None`. -/
def compress_frames {α : Type} (frames : List α) (timestamp : Nat)
    (outcome : EncodeOutcome) (fs : FileSystem) :
    Option (List Byte) × FileSystem :=
  if frames.length = 0 then (none, fs)
  else
    let saved := frame_files timestamp frames.length
    let fs1 := fs ++ saved
    match outcome with
    | EncodeOutcome.success bytes =>
        (some bytes,
         _cleanup_temp_files (saved ++ [TempFile.output timestamp])
           (fs1 ++ [TempFile.output timestamp]))
    | EncodeOutcome.outputMissing =>
        (none, _cleanup_temp_files (saved ++ [TempFile.output timestamp]) fs1)
    | EncodeOutcome.nonZeroExit =>
        (none, _cleanup_temp_files (saved ++ [TempFile.output timestamp]) fs1)
    | EncodeOutcome.timeout =>
        (none, _cleanup_temp_files (saved ++ [TempFile.output timestamp]) fs1)

/-- `FFmpegVideoCompressor` configuration (fields set by its constructor;
`fps` defaults to 30). -/
structure FFmpegVideoCompressor where
  width : Nat
  height : Nat
  fps : Nat
  bitrate : String
  preset : String
deriving DecidableEq

/-- The `"medium"` entry of the `quality_settings` dict of
`create_compressor_for_format`. -/
def medium_settings : String × String := ("2M", "fast")

/-- The `quality_settings` dict of `create_compressor_for_format`. -/
def quality_settings : List (String × (String × String)) :=
  [("low", ("1M", "ultrafast")),
   ("medium", medium_settings),
   ("high", ("4M", "medium"))]

/-- `create_compressor_for_format` of `_compression.py`:
`quality_settings.get(quality, quality_settings["medium"])`, then an
`FFmpegVideoCompressor` with that bitrate and preset (and the constructor's
default `fps = 30`). -/
def create_compressor_for_format (width height : Nat) (quality : String) :
    FFmpegVideoCompressor :=
  let settings := (List.lookup quality quality_settings).getD medium_settings
  FFmpegVideoCompressor.mk width height 30 settings.1 settings.2

theorem list_map_eq_self {α : Type} {f : α → α} (h : ∀ a, f a = a) :
    ∀ l : List α, l.map f = l := by
  intro l
  induction l with
  | nil => rfl
  | cons a t ih => simp [h a, ih]

/-- Claim C6: applying the BGRA-to-RGBA conversion twice returns the
original buffer — the swap of channel indices 0 and 2 is a self-inverse,
with channels 1 and 3 unchanged. -/
theorem bgra_to_rgba_involutive (img : Image4) :
    _bgra_to_rgba (_bgra_to_rgba img) = img := by
  unfold _bgra_to_rgba
  rw [List.map_map]
  refine list_map_eq_self (fun row => ?_) img
  simp only [Function.comp_apply]
  rw [List.map_map]
  exact list_map_eq_self (fun p => rfl) row

/-- Claim C7: applying the ARGB-to-RGBA cyclic remap (output channels
0,1,2,3 taken from input channels 1,2,3,0) four times returns the original
buffer — the remap is a 4-cycle. -/
theorem argb_to_rgba_four_cycle (img : Image4) :
    _argb_to_rgba (_argb_to_rgba (_argb_to_rgba (_argb_to_rgba img))) = img := by
  unfold _argb_to_rgba
  rw [List.map_map, List.map_map, List.map_map]
  refine list_map_eq_self (fun row => ?_) img
  simp only [Function.comp_apply]
  rw [List.map_map, List.map_map, List.map_map]
  exact list_map_eq_self (fun p => rfl) row

/-- Claim C10: the compressor factory maps quality "low" to bitrate 1M and
preset ultrafast, "medium" to 2M and fast, "high" to 4M and medium, and any
unrecognized quality string silently falls back to the medium settings. -/
theorem create_compressor_quality_map (w h : Nat) (q : String) :
    ((create_compressor_for_format w h q).bitrate,
        (create_compressor_for_format w h q).preset)
      = if q = "low" then ("1M", "ultrafast")
        else if q = "medium" then ("2M", "fast")
        else if q = "high" then ("4M", "medium")
        else ("2M", "fast") := by
  by_cases h1 : q = "low"
  · subst h1; rfl
  · by_cases h2 : q = "medium"
    · subst h2; rfl
    · by_cases h3 : q = "high"
      · subst h3; rfl
      · have e1 : (q == ("low" : String)) = false := beq_eq_false_iff_ne.mpr h1
        have e2 : (q == ("medium" : String)) = false := beq_eq_false_iff_ne.mpr h2
        have e3 : (q == ("high" : String)) = false := beq_eq_false_iff_ne.mpr h3
        simp [create_compressor_for_format, quality_settings, List.lookup,
          e1, e2, e3, h1, h2, h3, medium_settings]

/-- Claim C1: the active subset selected for the additive plane-detection
column write contains exactly the frames whose state is ADDED, or whose
state is UPDATED and whose boundary is non-empty — the conjunction binds
the boundary check to the UPDATED branch only. -/
theorem plane_active_subset_precedence (frames : List PlaneDetectionFrame)
    (f : PlaneDetectionFrame) :
    f ∈ positively_changed_plane_frames frames ↔
      f ∈ frames ∧ (f.state = PlaneState.added
        ∨ (f.state = PlaneState.updated ∧ f.plane.boundary ≠ [])) := by
  simp [positively_changed_plane_frames, List.mem_filter, Bool.or_eq_true,
    Bool.and_eq_true, beq_iff_eq, decide_eq_true_eq, List.length_pos]

/-- Counterexample to claim C3: with compression enabled and a homogeneous
batch of two RGBA32 frames the should-compress predicate holds, yet
`save_color_frames` never calls the compressor for that format — the call
exists only in the RGB24 branch. -/
theorem should_compress_mismatch_rgba32 :
    ¬ (SinkOp.compressAttempt ∈ colorGroupOps true XRFormat.rgba32 2
        ↔ shouldCompress true XRFormat.rgba32 2 = true) := by
  decide

/-- Claim C3 (amended): compression is attempted for a homogeneous color
batch exactly when the should-compress predicate holds AND the batch's
pixel format is RGB24; for the other RGB-family formats the predicate may
hold but no compression is attempted. -/
theorem compression_attempt_iff_rgb24 (e : Bool) (format : XRFormat)
    (n : Nat) :
    SinkOp.compressAttempt ∈ colorGroupOps e format n
      ↔ (shouldCompress e format n = true ∧ format = XRFormat.rgb24) := by
  cases format <;> simp [colorGroupOps]

/-- Counterexample to claim C8: `save_gyroscope_frames` returns silently on
an empty batch — unlike the other entry points it emits no warning. -/
theorem save_gyroscope_empty_no_warning :
    SinkOp.warn ∉ save_gyroscope_frames_ops [] := by
  decide

/-- Claim C8 (amended): every frame-type entry point is a no-op on an empty
batch, performing no sink writes; all of them except the gyroscope entry
point emit a warning, while `save_gyroscope_frames` returns silently. -/
theorem save_frames_empty_batch_noop (e : Bool) :
    save_transform_frames_ops [] = [SinkOp.warn]
    ∧ save_color_frames_ops e [] = [SinkOp.warn]
    ∧ save_depth_frames_ops [] = [SinkOp.warn]
    ∧ save_gyroscope_frames_ops [] = []
    ∧ save_audio_frames_ops [] = [SinkOp.warn]
    ∧ save_plane_detection_frames_ops [] = [SinkOp.warn]
    ∧ save_point_cloud_detection_frames_ops [] = [SinkOp.warn]
    ∧ save_mesh_detection_frames_ops [] = [SinkOp.warn] :=
  ⟨rfl, rfl, rfl, rfl, rfl, rfl, rfl, rfl⟩

theorem lookupGroup_insertGrouped {κ α : Type} [DecidableEq κ] (k k' : κ)
    (a : α) (groups : List (κ × List α)) :
    lookupGroup k (insertGrouped k' a groups)
      = if k' = k then lookupGroup k groups ++ [a]
        else lookupGroup k groups := by
  induction groups with
  | nil =>
      simp only [insertGrouped, lookupGroup]
      split_ifs <;> simp [lookupGroup]
  | cons hd rest ih =>
      obtain ⟨k₀, g⟩ := hd
      simp only [insertGrouped, lookupGroup]
      by_cases h₀ : k₀ = k'
      · subst h₀
        by_cases h1 : k₀ = k <;> simp [lookupGroup, h1]
      · by_cases h1 : k₀ = k
        · subst h1
          have h2 : ¬ k' = k₀ := fun e => h₀ e.symm
          simp [lookupGroup, h₀, h2]
        · simp [lookupGroup, h₀, h1, ih]

theorem lookupGroup_groupByKeyAux {κ α : Type} [DecidableEq κ] (key : α → κ)
    (fs : List α) : ∀ (acc : List (κ × List α)) (k : κ),
    lookupGroup k (groupByKeyAux key acc fs)
      = lookupGroup k acc ++ fs.filter (fun a => decide (key a = k)) := by
  induction fs with
  | nil => intro acc k; simp [groupByKeyAux]
  | cons a as ih =>
      intro acc k
      simp only [groupByKeyAux]
      rw [ih, lookupGroup_insertGrouped]
      by_cases h : key a = k
      · simp [h, List.filter_cons, List.append_assoc]
      · simp [h, List.filter_cons]

theorem lookupGroup_groupByKey {κ α : Type} [DecidableEq κ] (key : α → κ)
    (fs : List α) (k : κ) :
    lookupGroup k (groupByKey key fs)
      = fs.filter (fun a => decide (key a = k)) := by
  rw [groupByKey, lookupGroup_groupByKeyAux]
  simp [lookupGroup]

theorem groupKeys_cons {κ α : Type} (p : κ × List α)
    (l : List (κ × List α)) : groupKeys (p :: l) = p.1 :: groupKeys l := rfl

theorem groupKeys_insertGrouped {κ α : Type} [DecidableEq κ] (k : κ) (a : α)
    (groups : List (κ × List α)) :
    groupKeys (insertGrouped k a groups)
      = if k ∈ groupKeys groups then groupKeys groups
        else groupKeys groups ++ [k] := by
  induction groups with
  | nil => simp [insertGrouped, groupKeys]
  | cons hd rest ih =>
      obtain ⟨k₀, g⟩ := hd
      by_cases h₀ : k₀ = k
      · subst h₀
        simp [insertGrouped, groupKeys_cons, List.mem_cons]
      · have h₀s : ¬ k = k₀ := fun e => h₀ e.symm
        simp only [insertGrouped, if_neg h₀, groupKeys_cons, ih]
        by_cases hm : k ∈ groupKeys rest
        · rw [if_pos hm, if_pos (by simp [List.mem_cons, hm])]
        · rw [if_neg hm, if_neg (by simp [List.mem_cons, h₀s, hm])]
          rfl

theorem mem_groupKeys_insertGrouped {κ α : Type} [DecidableEq κ] (k k' : κ)
    (a : α) (groups : List (κ × List α)) :
    k ∈ groupKeys (insertGrouped k' a groups)
      ↔ k ∈ groupKeys groups ∨ k = k' := by
  rw [groupKeys_insertGrouped]
  split_ifs with h
  · exact ⟨Or.inl, fun x => x.elim id (fun e => e ▸ h)⟩
  · simp [List.mem_append]

theorem nodup_groupKeys_insertGrouped {κ α : Type} [DecidableEq κ] (k : κ)
    (a : α) (groups : List (κ × List α))
    (h : (groupKeys groups).Nodup) :
    (groupKeys (insertGrouped k a groups)).Nodup := by
  rw [groupKeys_insertGrouped]
  split_ifs with hmem
  · exact h
  · simp [List.nodup_append, h, hmem]

theorem nodup_groupKeys_groupByKeyAux {κ α : Type} [DecidableEq κ]
    (key : α → κ) (fs : List α) : ∀ (acc : List (κ × List α)),
    (groupKeys acc).Nodup → (groupKeys (groupByKeyAux key acc fs)).Nodup := by
  induction fs with
  | nil => intro acc h; exact h
  | cons a as ih =>
      intro acc h
      exact ih _ (nodup_groupKeys_insertGrouped _ _ _ h)

theorem mem_groupKeys_groupByKeyAux {κ α : Type} [DecidableEq κ]
    (key : α → κ) (fs : List α) : ∀ (acc : List (κ × List α)) (k : κ),
    k ∈ groupKeys (groupByKeyAux key acc fs)
      ↔ k ∈ groupKeys acc ∨ ∃ a, a ∈ fs ∧ key a = k := by
  induction fs with
  | nil => intro acc k; simp [groupByKeyAux]
  | cons a as ih =>
      intro acc k
      simp only [groupByKeyAux]
      rw [ih, mem_groupKeys_insertGrouped]
      simp only [List.mem_cons]
      constructor
      · rintro (((h | rfl) | ⟨b, hb, rfl⟩))
        · exact Or.inl h
        · exact Or.inr ⟨a, Or.inl rfl, rfl⟩
        · exact Or.inr ⟨b, Or.inr hb, rfl⟩
      · rintro (h | ⟨b, (rfl | hb), rfl⟩)
        · exact Or.inl (Or.inl h)
        · exact Or.inl (Or.inr rfl)
        · exact Or.inr ⟨b, hb, rfl⟩

/-- Claim C4: both frame groupers return a stable partition — the group of
every key is exactly the subsequence of input frames carrying that key (so
each frame lands in exactly one group, groups are homogeneous, and relative
input order is preserved), and the key of every input frame is present. -/
theorem frame_grouper_stable_partition (cs : List ColorFrame)
    (ds : List DepthFrame) :
    (∀ k, lookupGroup k (group_color_frames_by_format_and_dims cs)
        = cs.filter (fun f => decide (colorKey f = k)))
    ∧ (groupKeys (group_color_frames_by_format_and_dims cs)).Nodup
    ∧ (∀ f, f ∈ cs →
        colorKey f ∈ groupKeys (group_color_frames_by_format_and_dims cs))
    ∧ (∀ k, lookupGroup k (group_depth_frames_by_format_dims_and_smoothness ds)
        = ds.filter (fun f => decide (depthKey f = k)))
    ∧ (groupKeys (group_depth_frames_by_format_dims_and_smoothness ds)).Nodup
    ∧ (∀ f, f ∈ ds →
        depthKey f ∈ groupKeys (group_depth_frames_by_format_dims_and_smoothness ds)) := by
  refine ⟨fun k => ?_, ?_, fun f hf => ?_, fun k => ?_, ?_, fun f hf => ?_⟩
  · exact lookupGroup_groupByKey colorKey cs k
  · exact nodup_groupKeys_groupByKeyAux colorKey cs [] (by simp [groupKeys])
  · rw [group_color_frames_by_format_and_dims, groupByKey,
      mem_groupKeys_groupByKeyAux]
    exact Or.inr ⟨f, hf, rfl⟩
  · exact lookupGroup_groupByKey depthKey ds k
  · exact nodup_groupKeys_groupByKeyAux depthKey ds [] (by simp [groupKeys])
  · rw [group_depth_frames_by_format_dims_and_smoothness, groupByKey,
      mem_groupKeys_groupByKeyAux]
    exact Or.inr ⟨f, hf, rfl⟩

theorem not_mem_cleanup_of_mem {x : TempFile} {files : List TempFile}
    (fs : FileSystem) (h : x ∈ files) : x ∉ _cleanup_temp_files files fs := by
  intro hx
  rw [_cleanup_temp_files, List.mem_filter] at hx
  have h2 := hx.2
  simp at h2
  exact h2 h

theorem mem_frame_files {timestamp i n : Nat} (h1 : 1 ≤ i) (h2 : i ≤ n) :
    TempFile.frameImage timestamp i ∈ frame_files timestamp n := by
  rw [frame_files, List.mem_map]
  refine ⟨i - 1, ?_, ?_⟩
  · rw [List.mem_range]; omega
  · rw [Nat.sub_add_cancel h1]

/-- Claim C9: `VideoSession.compress_frames` deletes every per-call scratch
image file and the per-call output file before returning, on every encode
outcome (success, non-zero exit, timeout, or missing output file), and on
any failure outcome it returns no compressed bytes. -/
theorem compress_frames_cleanup {α : Type} (frames : List α) (timestamp : Nat)
    (outcome : EncodeOutcome) (fs : FileSystem) (hne : frames ≠ []) :
    (∀ i, 1 ≤ i → i ≤ frames.length →
        TempFile.frameImage timestamp i
          ∉ (compress_frames frames timestamp outcome fs).2)
    ∧ TempFile.output timestamp ∉ (compress_frames frames timestamp outcome fs).2
    ∧ (outcome.isSuccess = false →
        (compress_frames frames timestamp outcome fs).1 = none) := by
  have hlen : ¬ frames.length = 0 := fun h => hne (List.length_eq_zero.mp h)
  cases outcome with
  | success bytes =>
      refine ⟨fun i h1 h2 => ?_, ?_, fun h => ?_⟩
      · simp only [compress_frames, if_neg hlen]
        exact not_mem_cleanup_of_mem _
          (List.mem_append_left _ (mem_frame_files h1 h2))
      · simp only [compress_frames, if_neg hlen]
        exact not_mem_cleanup_of_mem _ (List.mem_append_right _ (by simp))
      · simp [EncodeOutcome.isSuccess] at h
  | outputMissing =>
      refine ⟨fun i h1 h2 => ?_, ?_, fun h => ?_⟩
      · simp only [compress_frames, if_neg hlen]
        exact not_mem_cleanup_of_mem _
          (List.mem_append_left _ (mem_frame_files h1 h2))
      · simp only [compress_frames, if_neg hlen]
        exact not_mem_cleanup_of_mem _ (List.mem_append_right _ (by simp))
      · simp [compress_frames, if_neg hlen]
  | nonZeroExit =>
      refine ⟨fun i h1 h2 => ?_, ?_, fun h => ?_⟩
      · simp only [compress_frames, if_neg hlen]
        exact not_mem_cleanup_of_mem _
          (List.mem_append_left _ (mem_frame_files h1 h2))
      · simp only [compress_frames, if_neg hlen]
        exact not_mem_cleanup_of_mem _ (List.mem_append_right _ (by simp))
      · simp [compress_frames, if_neg hlen]
  | timeout =>
      refine ⟨fun i h1 h2 => ?_, ?_, fun h => ?_⟩
      · simp only [compress_frames, if_neg hlen]
        exact not_mem_cleanup_of_mem _
          (List.mem_append_left _ (mem_frame_files h1 h2))
      · simp only [compress_frames, if_neg hlen]
        exact not_mem_cleanup_of_mem _ (List.mem_append_right _ (by simp))
      · simp [compress_frames, if_neg hlen]

/-- Witness for claim C9 at a concrete input: a two-frame submission with a
timed-out encode, starting from a scratch directory that already holds a
stale output file. -/
theorem compress_frames_cleanup_w :
    ([0, 1] : List Nat) ≠ []
    ∧ ((∀ i, 1 ≤ i → i ≤ ([0, 1] : List Nat).length →
          TempFile.frameImage 5 i
            ∉ (compress_frames [0, 1] 5 EncodeOutcome.timeout
                [TempFile.output 5]).2)
       ∧ TempFile.output 5
            ∉ (compress_frames [0, 1] 5 EncodeOutcome.timeout
                [TempFile.output 5]).2
       ∧ (EncodeOutcome.timeout.isSuccess = false →
            (compress_frames [0, 1] 5 EncodeOutcome.timeout
                [TempFile.output 5]).1 = none)) :=
  ⟨by decide,
   compress_frames_cleanup [0, 1] 5 EncodeOutcome.timeout
     [TempFile.output 5] (by decide)⟩

/-- Claim C2 fails on the code: `_convert_2d_to_3d_boundary_points` has no
guard on a near-zero-length normal.  At the zero normal with a non-empty
boundary the divisor `np.linalg.norm(normal)` is exactly 0, yet the
function still produces a (K+1)-point output instead of the empty output
(plus warning) the specification requires. -/
theorem convert_zero_normal_unguarded :
    norm3 (Vec3.mk 0 0 0) = 0
    ∧ (_convert_2d_to_3d_boundary_points [Vector2.mk 1 0] (Vec3.mk 0 0 0)
        (Vec3.mk 0 0 0)).length = 2 := by
  constructor
  · simp [norm3]
  · simp [_convert_2d_to_3d_boundary_points]

/-- Claim C5: for a boundary of K >= 1 points with a nonzero normal, the
projected output has exactly K+1 points, point `i < K` is
`center + p.x * u + p.y * v` for the constructed in-plane basis `(u, v)`,
and the last output point equals the first (the loop is closed). -/
theorem convert_boundary_closed_loop (boundary : List Vector2)
    (normal center : Vec3) (hb : boundary ≠ [])
    (_hn : normal ≠ Vec3.mk 0 0 0) :
    (_convert_2d_to_3d_boundary_points boundary normal center).length
        = boundary.length + 1
    ∧ (∀ i, i < boundary.length →
        (_convert_2d_to_3d_boundary_points boundary normal center)[i]?
          = (boundary[i]?).map
              (projectPoint center (planeBasis normal).1 (planeBasis normal).2))
    ∧ (_convert_2d_to_3d_boundary_points boundary normal center).getLast?
        = (_convert_2d_to_3d_boundary_points boundary normal center).head? := by
  obtain ⟨b0, rest, rfl⟩ := List.exists_cons_of_ne_nil hb
  refine ⟨?_, fun i hi => ?_, ?_⟩
  · simp [_convert_2d_to_3d_boundary_points]
  · rw [show _convert_2d_to_3d_boundary_points (b0 :: rest) normal center
        = (b0 :: rest).map
            (projectPoint center (planeBasis normal).1 (planeBasis normal).2)
          ++ [projectPoint center (planeBasis normal).1 (planeBasis normal).2 b0]
      from rfl]
    rw [List.getElem?_append, if_pos (by simpa using hi), List.getElem?_map]
  · rw [show _convert_2d_to_3d_boundary_points (b0 :: rest) normal center
        = (b0 :: rest).map
            (projectPoint center (planeBasis normal).1 (planeBasis normal).2)
          ++ [projectPoint center (planeBasis normal).1 (planeBasis normal).2 b0]
      from rfl]
    rw [List.getLast?_concat]
    simp

/-- Witness for claim C5 at a concrete input: the one-point boundary
`[(1, 2)]` with normal `(0, 0, 1)` and center at the origin. -/
theorem convert_boundary_closed_loop_w :
    ([Vector2.mk 1 2] : List Vector2) ≠ []
    ∧ Vec3.mk 0 0 1 ≠ Vec3.mk 0 0 0
    ∧ ((_convert_2d_to_3d_boundary_points [Vector2.mk 1 2] (Vec3.mk 0 0 1)
          (Vec3.mk 0 0 0)).length = [Vector2.mk 1 2].length + 1
       ∧ (∀ i, i < [Vector2.mk 1 2].length →
            (_convert_2d_to_3d_boundary_points [Vector2.mk 1 2] (Vec3.mk 0 0 1)
                (Vec3.mk 0 0 0))[i]?
              = (([Vector2.mk 1 2] : List Vector2)[i]?).map
                  (projectPoint (Vec3.mk 0 0 0)
                    (planeBasis (Vec3.mk 0 0 1)).1
                    (planeBasis (Vec3.mk 0 0 1)).2))
       ∧ (_convert_2d_to_3d_boundary_points [Vector2.mk 1 2] (Vec3.mk 0 0 1)
            (Vec3.mk 0 0 0)).getLast?
          = (_convert_2d_to_3d_boundary_points [Vector2.mk 1 2] (Vec3.mk 0 0 1)
              (Vec3.mk 0 0 0)).head?) :=
  ⟨by simp,
   by simp [Vec3.mk.injEq],
   convert_boundary_closed_loop [Vector2.mk 1 2] (Vec3.mk 0 0 1)
     (Vec3.mk 0 0 0) (by simp) (by simp [Vec3.mk.injEq])⟩
